import Mathlib

/-!
Shallow embedding of the solar-analyzer core: the PVS6 device-payload
normalizer (`parse_device_data` and its callers in
`src/solar_analyzer/api/pvs6_local.py`), the energy-statistics endpoint
(`get_energy_stats` in `src/solar_analyzer/api/routes.py`), the sync
endpoints (`sync_local_data`, `sync_cloud_data` in the same file), the
pydantic row validators (`src/solar_analyzer/data/schemas.py` together with
the unique constraints of `src/solar_analyzer/data/models.py`), and the
historical importer (`import_historical_data.py`).

Python floats are modelled as rationals (ℚ); timestamps as natural numbers
(an abstract instant); Python exceptions as `Except String`; the database
session as an explicit store value threaded through each call.
-/

namespace SolarAnalyzer

/-- Whether `pat` is a prefix of `s` (on character lists). -/
def charPrefix : List Char → List Char → Bool
  | [], _ => true
  | _ :: _, [] => false
  | a :: as, b :: bs => a = b && charPrefix as bs

/-- Whether `pat` occurs somewhere in `s` (on character lists). -/
def charInfix (pat : List Char) : List Char → Bool
  | [] => charPrefix pat []
  | c :: rest => charPrefix pat (c :: rest) || charInfix pat rest

/-- Python's substring test `pat in s`. -/
def strIn (pat s : String) : Bool := charInfix pat.toList s.toList

/-- Python's `str.upper()` (ASCII case mapping suffices here). -/
def pyUpper (s : String) : String := ⟨s.data.map Char.toUpper⟩

/-- One raw entry of the local gateway's `DeviceList` payload: an untyped
dictionary; every field the code reads is modelled, `none` meaning the key
is absent (Python `dict.get` supplies the default). -/
structure Device where
  DEVICE_TYPE : Option String := none
  SERIAL : Option String := none
  STATE : Option String := none
  SWVER : Option String := none
  MODEL : Option String := none
  subtype : Option String := none
  p_3phsum_kw : Option ℚ := none
  net_ltea_3phsum_kwh : Option ℚ := none
  v12_v : Option ℚ := none
  i_a : Option ℚ := none
  freq_hz : Option ℚ := none
  TYPE : Option String := none
  PANEL : Option String := none
  MOD_SN : Option String := none
  ltea_3phsum_kwh : Option ℚ := none
  vln_3phavg_v : Option ℚ := none
  i_3phsum_a : Option ℚ := none
  t_htsnk_degc : Option ℚ := none
  v_mppt1_v : Option ℚ := none
  i_mppt1_a : Option ℚ := none
  DATATIME : Option String := none
  deriving DecidableEq

/-- The `pvs` summary record built by `parse_device_data`. -/
structure PVSInfo where
  serial : String
  state : String
  software_version : String
  model : String
  deriving DecidableEq

/-- The `meter_data` record built by `parse_device_data` for a Power Meter. -/
structure MeterData where
  serial : String
  type : String
  subtype : String
  power_kw : ℚ
  energy_kwh : ℚ
  voltage_v : ℚ
  current_a : ℚ
  frequency_hz : ℚ
  state : String
  deriving DecidableEq

/-- The `inverter_data` record built by `parse_device_data` for an Inverter. -/
structure InverterData where
  serial : String
  model : String
  panel : String
  module_serial : String
  power_w : ℚ
  power_kw : ℚ
  energy_kwh : ℚ
  voltage_v : ℚ
  current_a : ℚ
  frequency_hz : ℚ
  temperature_c : ℚ
  mppt_voltage_v : ℚ
  mppt_current_a : ℚ
  state : String
  datatime : String
  deriving DecidableEq

/-- The `result` dictionary of `parse_device_data`. -/
structure ParseResult where
  pvs : Option PVSInfo := none
  power_meters : List MeterData := []
  inverters : List InverterData := []
  total_power_kw : ℚ := 0
  consumption_kw : ℚ := 0
  grid_kw : ℚ := 0
  deriving DecidableEq

/-- One iteration of the `for device in devices` loop of
`parse_device_data` (`src/solar_analyzer/api/pvs6_local.py`, lines 44-101). -/
def parseDeviceStep (r : ParseResult) (device : Device) : ParseResult :=
  let device_type := device.DEVICE_TYPE.getD ""
  if device_type = "PVS" then
    { r with pvs := some {
        serial := device.SERIAL.getD ""
        state := device.STATE.getD ""
        software_version := device.SWVER.getD ""
        model := device.MODEL.getD "" } }
  else if device_type = "Power Meter" then
    let power_kw := device.p_3phsum_kw.getD 0
    let subtype := device.subtype.getD ""
    let meter_data : MeterData := {
      serial := device.SERIAL.getD ""
      type := device.TYPE.getD ""
      subtype := subtype
      power_kw := power_kw
      energy_kwh := device.net_ltea_3phsum_kwh.getD 0
      voltage_v := device.v12_v.getD 0
      current_a := device.i_a.getD 0
      frequency_hz := device.freq_hz.getD 0
      state := device.STATE.getD "" }
    let r := { r with power_meters := r.power_meters ++ [meter_data] }
    if strIn "PRODUCTION" (pyUpper subtype) then
      { r with total_power_kw := max r.total_power_kw power_kw }
    else if strIn "CONSUMPTION" (pyUpper subtype) then
      { r with consumption_kw := |power_kw| }
    else r
  else if device_type = "Inverter" then
    let power_kw := device.p_3phsum_kw.getD 0
    let power_w := power_kw * 1000
    let inverter_data : InverterData := {
      serial := device.SERIAL.getD ""
      model := device.MODEL.getD ""
      panel := device.PANEL.getD ""
      module_serial := device.MOD_SN.getD ""
      power_w := power_w
      power_kw := power_kw
      energy_kwh := device.ltea_3phsum_kwh.getD 0
      voltage_v := device.vln_3phavg_v.getD 0
      current_a := device.i_3phsum_a.getD 0
      frequency_hz := device.freq_hz.getD 0
      temperature_c := device.t_htsnk_degc.getD 0
      mppt_voltage_v := device.v_mppt1_v.getD 0
      mppt_current_a := device.i_mppt1_a.getD 0
      state := device.STATE.getD ""
      datatime := device.DATATIME.getD "" }
    { r with inverters := r.inverters ++ [inverter_data] }
  else r

/-- The function `parse_device_data` of
`src/solar_analyzer/api/pvs6_local.py`: fold the
per-device step over the list, then set `grid_kw = total_power_kw -
consumption_kw`. -/
def parse_device_data (devices : List Device) : ParseResult :=
  let r := devices.foldl parseDeviceStep {}
  { r with grid_kw := r.total_power_kw - r.consumption_kw }

/-- A Power Meter record whose subtype contains "PRODUCTION"
case-insensitively: exactly the records that reach the
`result["total_power_kw"] = max ...` branch. -/
def isProductionMeter (d : Device) : Bool :=
  d.DEVICE_TYPE.getD "" = "Power Meter" &&
  strIn "PRODUCTION" (pyUpper (d.subtype.getD ""))

/-- A Power Meter record that reaches the
`result["consumption_kw"] = abs(...)` branch: subtype contains
"CONSUMPTION" but not "PRODUCTION" (the `elif`). -/
def isConsumptionMeter (d : Device) : Bool :=
  d.DEVICE_TYPE.getD "" = "Power Meter" &&
  ! strIn "PRODUCTION" (pyUpper (d.subtype.getD "")) &&
  strIn "CONSUMPTION" (pyUpper (d.subtype.getD ""))

/-- The powers of the production-subtype Power Meter records, in order. -/
def productionPowers (devices : List Device) : List ℚ :=
  (devices.filter isProductionMeter).map (fun d => d.p_3phsum_kw.getD 0)

/-- The powers of the consumption-branch Power Meter records, in order. -/
def consumptionPowers (devices : List Device) : List ℚ :=
  (devices.filter isConsumptionMeter).map (fun d => d.p_3phsum_kw.getD 0)

/-- Python's `max` over a nonempty collection, 0.0 for the empty one: the
reading of "the maximum power over all production records (0.0 if none)" in
the specification. -/
def maxOfList : List ℚ → ℚ
  | [] => 0
  | x :: xs => xs.foldl max x

/-- Spec-side production figure, following the specification's words: the
maximum power over all production-subtype Power Meter records, 0.0 if there
are none.  Compared against the source's `total_power_kw`. -/
def spec_total_power_kw (devices : List Device) : ℚ :=
  maxOfList (productionPowers devices)

/-- The method `get_current_production`: the fetch+parse is wrapped in
`try ... except Exception: return 0.0`; the fetch outcome is the
parameter. -/
def get_current_production (fetch : Except String (List Device)) : ℚ :=
  match fetch with
  | .ok device_list => (parse_device_data device_list).total_power_kw
  | .error _ => 0

/-- The method `get_panel_details`: same shape,
`except Exception: return []`. -/
def get_panel_details (fetch : Except String (List Device)) :
    List InverterData :=
  match fetch with
  | .ok device_list => (parse_device_data device_list).inverters
  | .error _ => []

/-- A stored `solar_readings` row (`SolarReading` of
`src/solar_analyzer/data/models.py`): timestamp (abstract instant, carries
the unique constraint `uq_solar_reading_timestamp`), production /
consumption / grid in kW, optional battery power and state of charge. -/
structure SolarReadingRow where
  timestamp : Nat
  production_kw : ℚ
  consumption_kw : ℚ
  grid_kw : ℚ
  battery_kw : Option ℚ := none
  battery_soc : Option ℚ := none
  deriving DecidableEq

/-- The `EnergyStats` response schema
(`src/solar_analyzer/data/schemas.py`). -/
structure EnergyStats where
  period : String
  total_production_kwh : ℚ
  total_consumption_kwh : ℚ
  total_export_kwh : ℚ
  total_import_kwh : ℚ
  self_consumption_rate : ℚ
  peak_production_kw : ℚ
  average_production_kw : ℚ
  deriving DecidableEq

/-- The all-zero `EnergyStats` literal the endpoint builds for an empty
result set (and in its catch-all handler). -/
def zeroStats (period : String) : EnergyStats :=
  { period := period
    total_production_kwh := 0
    total_consumption_kwh := 0
    total_export_kwh := 0
    total_import_kwh := 0
    self_consumption_rate := 0
    peak_production_kw := 0
    average_production_kw := 0 }

/-- The statistics computation of `get_energy_stats`
(`src/solar_analyzer/api/routes.py`, lines 137-173), applied to the
readings returned by the period-window query (`timestamp >= start`): early
all-zero return on the empty set, otherwise plain single-pass reductions. -/
def statsFor (period : String) (readings : List SolarReadingRow) :
    EnergyStats :=
  if readings = [] then zeroStats period
  else
    let total_production := (readings.map (·.production_kw)).sum
    let total_consumption := (readings.map (·.consumption_kw)).sum
    let total_export := (readings.map (fun r => max 0 r.grid_kw)).sum
    let total_import := (readings.map (fun r => max 0 (-r.grid_kw))).sum
    let peak_production := maxOfList (readings.map (·.production_kw))
    let avg_production :=
      if readings ≠ [] then total_production / (readings.length : ℚ) else 0
    let self_consumption_rate :=
      if total_production > 0 then
        (total_production - total_export) / total_production * 100
      else 0
    { period := period
      total_production_kwh := total_production
      total_consumption_kwh := total_consumption
      total_export_kwh := total_export
      total_import_kwh := total_import
      self_consumption_rate := self_consumption_rate
      peak_production_kw := peak_production
      average_production_kw := avg_production }

/-- FastAPI's `HTTPException`, carrying status code and detail. -/
structure HTTPError where
  status_code : Nat
  detail : String
  deriving DecidableEq

/-- The body of the `try` block of `get_energy_stats`
(`src/solar_analyzer/api/routes.py`, lines 117-173): dispatch on the period
label, raising `HTTPException(400, "Invalid period")` for an unknown one,
otherwise compute the statistics over the window's readings (the window
only determines which stored readings the query returns, so the selected
readings are the parameter here). -/
def get_energy_stats_try (period : String) (readings : List SolarReadingRow) :
    Except HTTPError EnergyStats :=
  if period = "today" ∨ period = "week" ∨ period = "month" ∨ period = "year"
  then .ok (statsFor period readings)
  else .error { status_code := 400, detail := "Invalid period" }

/-- The whole `get_energy_stats` endpoint: the `try` body together with the
catch-all `except Exception` that returns all-zero stats.  Python's
`HTTPException` subclasses `Exception`, so the 400 raised for an invalid
period is caught here too and the endpoint answers with zeroed stats. -/
def get_energy_stats (period : String) (readings : List SolarReadingRow) :
    EnergyStats :=
  match get_energy_stats_try period readings with
  | .ok stats => stats
  | .error _ => zeroStats period

/-- A stored `panel_readings` row (`PanelReading` of
`src/solar_analyzer/data/models.py`); `(timestamp, panel_id)` carries the
unique constraint `uq_panel_reading`. -/
structure PanelReadingRow where
  timestamp : Nat
  panel_id : String
  serial_number : Option String := none
  power_w : ℚ
  voltage_v : Option ℚ := none
  current_a : Option ℚ := none
  temperature_c : Option ℚ := none
  deriving DecidableEq

/-- pydantic construction of `SolarReadingCreate`
(`src/solar_analyzer/data/schemas.py`): `production_kw` and
`consumption_kw` carry `ge=0`, `battery_soc` carries `ge=0, le=100`;
a violated bound raises a `ValidationError`. -/
def SolarReadingCreateV (timestamp : Nat)
    (production_kw consumption_kw grid_kw : ℚ)
    (battery_kw battery_soc : Option ℚ) : Except String SolarReadingRow :=
  if production_kw < 0 then
    .error "validation error: production_kw greater than or equal to 0"
  else if consumption_kw < 0 then
    .error "validation error: consumption_kw greater than or equal to 0"
  else
    match battery_soc with
    | some soc =>
        if soc < 0 ∨ soc > 100 then
          .error "validation error: battery_soc out of range"
        else .ok { timestamp, production_kw, consumption_kw, grid_kw,
                   battery_kw, battery_soc }
    | none => .ok { timestamp, production_kw, consumption_kw, grid_kw,
                    battery_kw, battery_soc }

/-- pydantic construction of `PanelReadingCreate`
(`src/solar_analyzer/data/schemas.py`): `power_w` carries `ge=0`, the
optional `voltage_v` and `current_a` carry `ge=0` when supplied. -/
def PanelReadingCreateV (timestamp : Nat) (panel_id : String)
    (serial_number : Option String) (power_w : ℚ)
    (voltage_v current_a temperature_c : Option ℚ) :
    Except String PanelReadingRow :=
  if power_w < 0 then
    .error "validation error: power_w greater than or equal to 0"
  else if (voltage_v.getD 0) < 0 then
    .error "validation error: voltage_v greater than or equal to 0"
  else if (current_a.getD 0) < 0 then
    .error "validation error: current_a greater than or equal to 0"
  else .ok { timestamp, panel_id, serial_number, power_w, voltage_v,
             current_a, temperature_c }

/-- The persisted database state: committed solar and panel rows. -/
structure Store where
  solar : List SolarReadingRow := []
  panels : List PanelReadingRow := []
  deriving DecidableEq

/-- The effect of `db.commit()` with rows staged by `db.add`: the commit
succeeds iff the
unique constraints of `src/solar_analyzer/data/models.py` hold afterwards
(`solar_readings.timestamp` unique; `(timestamp, panel_id)` unique for
panel rows); a violation raises an integrity error and leaves the store
unchanged. -/
def commitStaged (store : Store) (solarStaged : List SolarReadingRow)
    (panelStaged : List PanelReadingRow) : Except String Store :=
  let allTs : List Nat := (store.solar ++ solarStaged).map (·.timestamp)
  let allKeys : List (Nat × String) := (store.panels ++ panelStaged).map
    (fun p => (p.timestamp, p.panel_id))
  if allTs.Nodup ∧ allKeys.Nodup then
    .ok { solar := store.solar ++ solarStaged
          panels := store.panels ++ panelStaged }
  else .error "UNIQUE constraint failed"

/-- The `for inverter in data["inverters"]` loop of `sync_local_data`
(`src/solar_analyzer/api/routes.py`, lines 266-277): build one
`PanelReadingCreate` per inverter; there is no per-item handler, so the
first construction failure propagates out of the loop. -/
def buildPanelReadings (now : Nat) :
    List InverterData → Except String (List PanelReadingRow)
  | [] => .ok []
  | inverter :: rest =>
      match PanelReadingCreateV now inverter.serial
        (some inverter.module_serial) inverter.power_w
        (some inverter.voltage_v) (some inverter.current_a)
        (some inverter.temperature_c) with
      | .error e => .error e
      | .ok p =>
          match buildPanelReadings now rest with
          | .error e => .error e
          | .ok ps => .ok (p :: ps)

/-- The `try` body of `sync_local_data`
(`src/solar_analyzer/api/routes.py`, lines 245-280): connectivity test
(`HTTPException(503)` on failure — itself an `Exception`), fetch, parse,
one `SolarReadingCreate` from the totals, one `PanelReadingCreate` per
inverter, then a single commit of everything staged. -/
def sync_local_body (fetch : Except String (List Device)) (now : Nat)
    (store : Store) : Except String Store :=
  match fetch with
  | .error _ => .error "Unable to connect to PVS6"
  | .ok device_list =>
      let data := parse_device_data device_list
      match SolarReadingCreateV now data.total_power_kw
        data.consumption_kw data.grid_kw none none with
      | .error e => .error e
      | .ok reading =>
          match buildPanelReadings now data.inverters with
          | .error e => .error e
          | .ok panels => commitStaged store [reading] panels

/-- The observable outcome of a sync endpoint call. -/
inductive SyncResult where
  | success (message : String)
  | httpError (e : HTTPError)
  deriving DecidableEq

/-- Whether a sync call reported success. -/
def SyncResult.isSuccess : SyncResult → Bool
  | .success _ => true
  | .httpError _ => false

/-- The whole `sync_local_data` endpoint: any exception in the `try` body
(including the 503 connectivity `HTTPException`) is caught by
`except Exception` and re-raised as `HTTPException(500, str(e))`; on an
exception nothing was committed, so the store is unchanged. -/
def sync_local_data (fetch : Except String (List Device)) (now : Nat)
    (store : Store) : SyncResult × Store :=
  match sync_local_body fetch now store with
  | .ok store' => (.success "Local data synced successfully", store')
  | .error e => (.httpError { status_code := 500, detail := e }, store)

/-- Split a character list at every occurrence of `sep`. -/
def splitOnChar (sep : Char) : List Char → List (List Char)
  | [] => [[]]
  | c :: rest =>
      let r := splitOnChar sep rest
      if c = sep then [] :: r
      else
        match r with
        | [] => [[c]]
        | g :: gs => (c :: g) :: gs

/-- Parse a digit run, most significant first. -/
def digitsToNatAux (acc : Nat) : List Char → Option Nat
  | [] => some acc
  | c :: rest =>
      if c.isDigit then digitsToNatAux (acc * 10 + (c.toNat - 48)) rest
      else none

/-- Parse a nonempty all-digit character list. -/
def digitsToNat : List Char → Option Nat
  | [] => none
  | l => digitsToNatAux 0 l

/-- Modelled from the spec: strict ISO-8601 timestamp parsing (the Python
standard library's `datetime.fromisoformat`, used by the cloud sync and
the historical importer, is not part of this repository).  Accepts exactly
`YYYY-MM-DDTHH:MM:SS` with all-digit, in-range components and encodes the
instant injectively as a natural number; anything else fails. -/
def fromisoformat (s : String) : Option Nat :=
  match splitOnChar 'T' s.toList with
  | [date, time] =>
    (match splitOnChar '-' date, splitOnChar ':' time with
     | [y, mo, d], [h, mi, sec] =>
        if y.length = 4 ∧ mo.length = 2 ∧ d.length = 2 ∧
           h.length = 2 ∧ mi.length = 2 ∧ sec.length = 2 then
          match digitsToNat y, digitsToNat mo, digitsToNat d,
                digitsToNat h, digitsToNat mi, digitsToNat sec with
          | some yn, some mon, some dn, some hn, some minn, some sn =>
              if 1 ≤ mon ∧ mon ≤ 12 ∧ 1 ≤ dn ∧ dn ≤ 31 ∧
                 hn ≤ 23 ∧ minn ≤ 59 ∧ sn ≤ 59 then
                some (((((yn * 13 + mon) * 32 + dn) * 24 + hn) * 60 + minn)
                      * 60 + sn)
              else none
          | _, _, _, _, _, _ => none
        else none
     | _, _ => none)
  | _ => none

/-- The `currentPower` dictionary of the cloud response
(`data.site.currentPower`); `none` marks an absent key. -/
structure CloudCurrent where
  timestamp : String
  production : Option ℚ := none
  consumption : Option ℚ := none
  grid : Option ℚ := none
  battery : Option ℚ := none
  batterySOC : Option ℚ := none
  deriving DecidableEq

/-- The non-timestamp argument values of a `SolarReadingCreate` call. -/
structure ReadingVals where
  production_kw : ℚ
  consumption_kw : ℚ
  grid_kw : ℚ
  battery_kw : Option ℚ
  battery_soc : Option ℚ
  deriving DecidableEq

/-- The field mapping of `sync_cloud_data`
(`src/solar_analyzer/api/routes.py`, lines 221-228): watts to kW by /1000
for production, consumption, grid and battery; `battery_kw` is passed only
when the `battery` key exists, `battery_soc` only when `batterySOC`
exists, else `None`. -/
def cloudCurrentVals (current : CloudCurrent) : ReadingVals :=
  { production_kw := current.production.getD 0 / 1000
    consumption_kw := current.consumption.getD 0 / 1000
    grid_kw := current.grid.getD 0 / 1000
    battery_kw :=
      if current.battery.isSome then some (current.battery.getD 0 / 1000)
      else none
    battery_soc :=
      if current.batterySOC.isSome then current.batterySOC else none }

/-- The `try` body of `sync_cloud_data`
(`src/solar_analyzer/api/routes.py`, lines 208-234): connectivity test
(`HTTPException(503)` on failure), then, when a `currentPower` entry is
present, parse its timestamp, build one `SolarReadingCreate` and commit it;
an absent/empty `currentPower` skips the insert and still succeeds. -/
def sync_cloud_body (connOk : Bool) (current : Option CloudCurrent)
    (store : Store) : Except String Store :=
  if ¬ connOk then .error "Unable to connect to SunPower API"
  else
    match current with
    | none => .ok store
    | some c =>
        match fromisoformat c.timestamp with
        | none => .error "Invalid isoformat string"
        | some ts =>
            let v := cloudCurrentVals c
            match SolarReadingCreateV ts v.production_kw
              v.consumption_kw v.grid_kw v.battery_kw v.battery_soc with
            | .error e => .error e
            | .ok reading => commitStaged store [reading] []

/-- The whole `sync_cloud_data` endpoint: any exception in the `try` body
is caught by `except Exception` and re-raised as `HTTPException(500)`. -/
def sync_cloud_data (connOk : Bool) (current : Option CloudCurrent)
    (store : Store) : SyncResult × Store :=
  match sync_cloud_body connOk current store with
  | .ok store' => (.success "Data synced successfully", store')
  | .error e => (.httpError { status_code := 500, detail := e }, store)

/-- One item of the cloud `energyData` series consumed by the historical
importer; `none` marks an absent key. -/
structure HistEntry where
  timestamp : String
  production : Option ℚ := none
  consumption : Option ℚ := none
  grid : Option ℚ := none
  battery : Option ℚ := none
  deriving DecidableEq

/-- The field mapping of the historical importer
(`import_historical_data.py`, lines 57-63): watts to kW by /1000;
`battery_kw` is passed only when `reading_data.get("battery")` is truthy
(present and nonzero), else `None`; `battery_soc` is never passed and so
takes its `None` default. -/
def histEntryVals (reading_data : HistEntry) : ReadingVals :=
  { production_kw := reading_data.production.getD 0 / 1000
    consumption_kw := reading_data.consumption.getD 0 / 1000
    grid_kw := reading_data.grid.getD 0 / 1000
    battery_kw :=
      match reading_data.battery with
      | some b => if b ≠ 0 then some (reading_data.battery.getD 0 / 1000)
                  else none
      | none => none
    battery_soc := none }

/-- The `try` body of one iteration of the importer's loop
(`import_historical_data.py`, lines 52-67): strict timestamp parse, then
`SolarReadingCreate` construction. -/
def importItem (reading_data : HistEntry) : Except String SolarReadingRow :=
  match fromisoformat reading_data.timestamp with
  | none => .error "Invalid isoformat string"
  | some timestamp =>
      let v := histEntryVals reading_data
      SolarReadingCreateV timestamp v.production_kw v.consumption_kw
        v.grid_kw v.battery_kw v.battery_soc

/-- The importer's running state: counters, rows staged since the last
commit, and the batches flushed by each commit in order. -/
structure ImportState where
  imported_count : Nat := 0
  skipped_count : Nat := 0
  pending : List SolarReadingRow := []
  commits : List (List SolarReadingRow) := []
  deriving DecidableEq

/-- One iteration of `for reading_data in readings_data`
(`import_historical_data.py`, lines 51-75): a failure anywhere in the item
body increments `skipped_count` and continues; a success stages the row,
increments `imported_count`, and commits the pending batch whenever
`imported_count % 100 == 0`. -/
def importStep (st : ImportState) (reading_data : HistEntry) : ImportState :=
  match importItem reading_data with
  | .error _ => { st with skipped_count := st.skipped_count + 1 }
  | .ok db_reading =>
      let st := { st with pending := st.pending ++ [db_reading]
                          imported_count := st.imported_count + 1 }
      if st.imported_count % 100 = 0 then
        { st with pending := [], commits := st.commits ++ [st.pending] }
      else st

/-- The importer's series loop with its final commit
(`import_historical_data.py`, lines 47-79). -/
def import_historical_data (readings_data : List HistEntry) : ImportState :=
  let st := readings_data.foldl importStep {}
  { st with pending := [], commits := st.commits ++ [st.pending] }

/-- Whether one series item of the historical import is processed
successfully (timestamp parses and the row validates). -/
def importOk (reading_data : HistEntry) : Bool :=
  match importItem reading_data with
  | .ok _ => true
  | .error _ => false

/-- A production-subtype meter reporting negative power. -/
def negProductionMeter : Device :=
  { DEVICE_TYPE := some "Power Meter", SERIAL := some "PM1",
    subtype := some "GROSS_PRODUCTION_SITE", p_3phsum_kw := some (-1) }

/-- An ordinary production-subtype meter reporting 5.5 kW. -/
def demoProductionMeter : Device :=
  { DEVICE_TYPE := some "Power Meter", SERIAL := some "PM2",
    subtype := some "PVS-PRODUCTION-METER", p_3phsum_kw := some (11 / 2) }

/-- An inverter reporting negative power: its `PanelReadingCreate`
(`power_w = -100`) violates the schema's `ge=0` bound. -/
def demoBadInverter : Device :=
  { DEVICE_TYPE := some "Inverter", SERIAL := some "INV1",
    p_3phsum_kw := some (-1 / 10) }

/-- A stored reading with production 2 kW, consumption 1 kW, grid 1 kW. -/
def demoReading : SolarReadingRow :=
  { timestamp := 1, production_kw := 2, consumption_kw := 1, grid_kw := 1 }

/-- A store already holding a reading at timestamp 7. -/
def demoDupStore : Store :=
  { solar := [{ timestamp := 7, production_kw := 3, consumption_kw := 1,
                grid_kw := 2 }] }

/-- A well-formed historical series item (watts). -/
def goodHistEntry : HistEntry :=
  { timestamp := "2024-06-01T12:00:00", production := some 1000,
    consumption := some 500, grid := some 500 }

/-- A series item whose timestamp fails strict ISO-8601 parsing. -/
def badHistEntry : HistEntry :=
  { timestamp := "not-a-timestamp" }

/-- A 250-item historical series, 3 items with malformed timestamps. -/
def demoHistorySeries : List HistEntry :=
  List.replicate 50 goodHistEntry ++ [badHistEntry] ++
  List.replicate 99 goodHistEntry ++ [badHistEntry] ++
  List.replicate 80 goodHistEntry ++ [badHistEntry] ++
  List.replicate 18 goodHistEntry

/-- A historical series item whose battery field is present with value 0. -/
def zeroBatteryEntry : HistEntry :=
  { timestamp := "2024-06-01T00:00:00", production := some 1000,
    consumption := some 500, grid := some 500, battery := some 0 }

/-- Invariant of the importer's loop after some prefix of the series has
been processed: `n` items imported, `skip` skipped, `rows` the imported
rows in order; every intermediate commit flushed exactly 100 rows, and the
rows staged since the last commit are the imported count modulo 100. -/
def ImportInv (n skip : Nat) (rows : List SolarReadingRow)
    (st : ImportState) : Prop :=
  st.imported_count = n ∧
  st.skipped_count = skip ∧
  st.commits.map List.length = List.replicate (n / 100) 100 ∧
  st.commits.flatten ++ st.pending = rows ∧
  st.pending.length = n % 100

/-! ## Helper lemmas -/

theorem parseDeviceStep_total (r : ParseResult) (d : Device) :
    (parseDeviceStep r d).total_power_kw =
      if isProductionMeter d then max r.total_power_kw (d.p_3phsum_kw.getD 0)
      else r.total_power_kw := by
  simp only [parseDeviceStep, isProductionMeter]
  split_ifs with h1 h2 h3 h4 h5 <;> simp_all

theorem parseDeviceStep_consumption (r : ParseResult) (d : Device) :
    (parseDeviceStep r d).consumption_kw =
      if isConsumptionMeter d then |d.p_3phsum_kw.getD 0|
      else r.consumption_kw := by
  simp only [parseDeviceStep, isConsumptionMeter]
  split_ifs with h1 h2 h3 h4 h5 <;> simp_all

theorem foldl_parse_total (ds : List Device) (r : ParseResult) :
    (ds.foldl parseDeviceStep r).total_power_kw =
      (productionPowers ds).foldl max r.total_power_kw := by
  induction ds generalizing r with
  | nil => rfl
  | cons d ds ih =>
      rw [List.foldl_cons, ih, parseDeviceStep_total]
      by_cases h : isProductionMeter d
      · have hc : productionPowers (d :: ds) =
            (d.p_3phsum_kw.getD 0) :: productionPowers ds := by
          simp [productionPowers, List.filter_cons_of_pos, h]
        rw [if_pos h, hc, List.foldl_cons]
      · have hc : productionPowers (d :: ds) = productionPowers ds := by
          simp [productionPowers, List.filter_cons_of_neg, h]
        rw [if_neg h, hc]

theorem foldl_parse_consumption (ds : List Device) (r : ParseResult) :
    (ds.foldl parseDeviceStep r).consumption_kw =
      (consumptionPowers ds).foldl (fun _ p => |p|) r.consumption_kw := by
  induction ds generalizing r with
  | nil => rfl
  | cons d ds ih =>
      rw [List.foldl_cons, ih, parseDeviceStep_consumption]
      by_cases h : isConsumptionMeter d
      · have hc : consumptionPowers (d :: ds) =
            (d.p_3phsum_kw.getD 0) :: consumptionPowers ds := by
          simp [consumptionPowers, List.filter_cons_of_pos, h]
        rw [if_pos h, hc, List.foldl_cons]
      · have hc : consumptionPowers (d :: ds) = consumptionPowers ds := by
          simp [consumptionPowers, List.filter_cons_of_neg, h]
        rw [if_neg h, hc]

theorem le_foldl_max (l : List ℚ) (a : ℚ) : a ≤ l.foldl max a := by
  induction l generalizing a with
  | nil => exact le_refl a
  | cons x xs ih =>
      exact le_trans (le_max_left a x) (ih (max a x))

theorem foldl_max_init (l : List ℚ) (a b : ℚ) :
    l.foldl max (max a b) = max a (l.foldl max b) := by
  induction l generalizing b with
  | nil => rfl
  | cons x xs ih =>
      rw [List.foldl_cons, List.foldl_cons, max_assoc, ih]

theorem foldl_max_zero_eq (l : List ℚ) :
    l.foldl max 0 = max 0 (maxOfList l) := by
  cases l with
  | nil => simp [maxOfList]
  | cons x xs =>
      rw [maxOfList, List.foldl_cons]
      have : max (0 : ℚ) x = max 0 (max 0 x) := by
        rw [← max_assoc, max_self]
      rw [show ((0 : ℚ) ⊔ x) = (0 ⊔ (0 ⊔ x)) from this, foldl_max_init,
          foldl_max_init]
      simp [← max_assoc]

theorem foldl_abs_last (l : List ℚ) (c : ℚ) :
    l.foldl (fun _ p => |p|) c = (l.map (fun p => |p|)).getLastD c := by
  induction l generalizing c with
  | nil => rfl
  | cons x xs ih =>
      rw [List.foldl_cons, ih, List.map_cons, List.getLastD_cons]

theorem grid_eq (devices : List Device) :
    (parse_device_data devices).grid_kw =
      (parse_device_data devices).total_power_kw
        - (parse_device_data devices).consumption_kw := by
  rfl

theorem getLastD_abs_nonneg (l : List ℚ) (c : ℚ) (hc : 0 ≤ c) :
    0 ≤ (l.map (fun p => |p|)).getLastD c := by
  induction l generalizing c with
  | nil => exact hc
  | cons x xs ih =>
      rw [List.map_cons, List.getLastD_cons]
      exact ih |x| (abs_nonneg x)

theorem foldl_max_mem (l : List ℚ) (a : ℚ) :
    l.foldl max a = a ∨ l.foldl max a ∈ l := by
  induction l generalizing a with
  | nil => exact Or.inl rfl
  | cons x xs ih =>
      rw [List.foldl_cons]
      rcases ih (max a x) with h | h
      · rcases max_choice a x with hc | hc
        · exact Or.inl (h.trans hc)
        · exact Or.inr (by rw [h, hc]; exact List.mem_cons_self x xs)
      · exact Or.inr (List.mem_cons_of_mem x h)

theorem mem_le_foldl_max (l : List ℚ) (x : ℚ) (hx : x ∈ l) (a : ℚ) :
    x ≤ l.foldl max a := by
  induction l generalizing a with
  | nil => cases hx
  | cons z zs ih =>
      rw [List.foldl_cons]
      rcases List.mem_cons.mp hx with h | h
      · subst h
        exact le_trans (le_max_right a x) (le_foldl_max zs (max a x))
      · exact ih h (max a z)

theorem maxOfList_mem (l : List ℚ) (h : l ≠ []) : maxOfList l ∈ l := by
  cases l with
  | nil => exact absurd rfl h
  | cons x xs =>
      rw [maxOfList]
      rcases foldl_max_mem xs x with hc | hc
      · rw [hc]; exact List.mem_cons_self x xs
      · exact List.mem_cons_of_mem x hc

theorem le_maxOfList (l : List ℚ) (x : ℚ) (hx : x ∈ l) : x ≤ maxOfList l := by
  cases l with
  | nil => cases hx
  | cons y ys =>
      rw [maxOfList]
      rcases List.mem_cons.mp hx with h | h
      · exact h ▸ le_foldl_max ys y
      · exact mem_le_foldl_max ys x h y

theorem statsFor_nonempty (period : String) (readings : List SolarReadingRow)
    (h : readings ≠ []) :
    statsFor period readings =
      { period := period
        total_production_kwh := (readings.map (·.production_kw)).sum
        total_consumption_kwh := (readings.map (·.consumption_kw)).sum
        total_export_kwh := (readings.map (fun r => max 0 r.grid_kw)).sum
        total_import_kwh := (readings.map (fun r => max 0 (-r.grid_kw))).sum
        self_consumption_rate :=
          if (readings.map (·.production_kw)).sum > 0 then
            ((readings.map (·.production_kw)).sum
                - (readings.map (fun r => max 0 r.grid_kw)).sum)
              / (readings.map (·.production_kw)).sum * 100
          else 0
        peak_production_kw := maxOfList (readings.map (·.production_kw))
        average_production_kw :=
          (readings.map (·.production_kw)).sum / (readings.length : ℚ) } := by
  simp only [statsFor, if_neg h, if_pos h]

theorem get_energy_stats_valid (period : String)
    (readings : List SolarReadingRow)
    (hp : period = "today" ∨ period = "week" ∨ period = "month" ∨
          period = "year") :
    get_energy_stats period readings = statsFor period readings := by
  unfold get_energy_stats get_energy_stats_try
  rw [if_pos hp]

/-! ## Claim theorems -/

/-- C1 (amended): for every device list, the normalizer's `total_power_kw`
is the maximum of 0.0 and the powers of all production-subtype Power Meter
records (not the bare maximum of those powers), `consumption_kw` is the
absolute value of the last consumption-branch meter's power (0.0 if none),
and `grid_kw = total_power_kw - consumption_kw`. -/
theorem C1_parse_device_totals (devices : List Device) :
    (parse_device_data devices).total_power_kw
        = max 0 (spec_total_power_kw devices) ∧
    (parse_device_data devices).consumption_kw
        = ((consumptionPowers devices).map (fun p => |p|)).getLastD 0 ∧
    (parse_device_data devices).grid_kw
        = (parse_device_data devices).total_power_kw
          - (parse_device_data devices).consumption_kw := by
  refine ⟨?_, ?_, rfl⟩
  · rw [show (parse_device_data devices).total_power_kw
          = (devices.foldl parseDeviceStep {}).total_power_kw from rfl,
        foldl_parse_total]
    rw [show (({} : ParseResult)).total_power_kw = 0 from rfl,
        foldl_max_zero_eq, spec_total_power_kw]
  · rw [show (parse_device_data devices).consumption_kw
          = (devices.foldl parseDeviceStep {}).consumption_kw from rfl,
        foldl_parse_consumption]
    exact foldl_abs_last _ _

/-- C9: for every input device list, the normalized `total_power_kw` and
`consumption_kw` are nonnegative: the former starts at 0.0 and is only
updated through `max`, the latter is only ever set to an absolute value. -/
theorem C9_parse_nonneg (devices : List Device) :
    0 ≤ (parse_device_data devices).total_power_kw ∧
    0 ≤ (parse_device_data devices).consumption_kw := by
  constructor
  · rw [show (parse_device_data devices).total_power_kw
          = (devices.foldl parseDeviceStep {}).total_power_kw from rfl,
        foldl_parse_total]
    exact le_foldl_max _ _
  · rw [show (parse_device_data devices).consumption_kw
          = (devices.foldl parseDeviceStep {}).consumption_kw from rfl,
        foldl_parse_consumption, foldl_abs_last]
    exact getLastD_abs_nonneg _ _ (le_refl 0)

/-- C10: for every fetch/parse failure, `get_current_production` returns
0.0 and `get_panel_details` returns the empty list — exactly the outputs
produced on a successful fetch of an empty device list, so an unreachable
gateway is indistinguishable from a zero-power site with no inverters. -/
theorem C10_failure_indistinguishable (e : String) :
    get_current_production (.error e) = 0 ∧
    get_panel_details (.error e) = [] ∧
    get_current_production (.ok []) = 0 ∧
    get_panel_details (.ok []) = [] :=
  ⟨rfl, rfl, rfl, rfl⟩

/-- C2: for every valid period and every set of readings in its window,
the statistics endpoint returns the component-wise sums
(production, consumption, export as `max 0 grid`, import as
`max 0 (-grid)`), the peak production (a member of the production values
that bounds them all, when nonempty), and the average
`total production / N`; the empty set yields the all-zero response. -/
theorem C2_energy_stats (period : String) (readings : List SolarReadingRow)
    (hp : period = "today" ∨ period = "week" ∨ period = "month" ∨
          period = "year") :
    (get_energy_stats period readings).total_production_kwh
        = (readings.map (·.production_kw)).sum ∧
    (get_energy_stats period readings).total_consumption_kwh
        = (readings.map (·.consumption_kw)).sum ∧
    (get_energy_stats period readings).total_export_kwh
        = (readings.map (fun r => max 0 r.grid_kw)).sum ∧
    (get_energy_stats period readings).total_import_kwh
        = (readings.map (fun r => max 0 (-r.grid_kw))).sum ∧
    (readings ≠ [] →
      (get_energy_stats period readings).peak_production_kw
          ∈ readings.map (·.production_kw) ∧
      ∀ q ∈ readings.map (·.production_kw),
        q ≤ (get_energy_stats period readings).peak_production_kw) ∧
    (get_energy_stats period readings).average_production_kw
        = (readings.map (·.production_kw)).sum / (readings.length : ℚ) ∧
    (readings = [] → get_energy_stats period readings = zeroStats period) := by
  rw [get_energy_stats_valid period readings hp]
  by_cases h : readings = []
  · subst h
    refine ⟨rfl, rfl, rfl, rfl, fun hne => absurd rfl hne, ?_, fun _ => rfl⟩
    show (0 : ℚ) = 0 / 0
    norm_num
  · rw [statsFor_nonempty period readings h]
    refine ⟨rfl, rfl, rfl, rfl, fun _ => ⟨?_, ?_⟩, rfl, fun he => absurd he h⟩
    · exact maxOfList_mem _ (by simpa using h)
    · intro q hq
      exact le_maxOfList _ q hq

/-- C3: the endpoint's `try` body does raise the distinct 400
"Invalid period" error for the period label "decade", but the surrounding
catch-all `except Exception` swallows it and the endpoint answers with a
zeroed-stats response instead — contradicting the claim and the repo's own
test, which asserts status 400. -/
theorem C3_invalid_period_swallowed (readings : List SolarReadingRow) :
    get_energy_stats "decade" readings = zeroStats "decade" ∧
    get_energy_stats_try "decade" readings
      = .error { status_code := 400, detail := "Invalid period" } := by
  have ht : get_energy_stats_try "decade" readings
      = .error { status_code := 400, detail := "Invalid period" } := by
    unfold get_energy_stats_try
    rw [if_neg (by decide)]
  refine ⟨?_, ht⟩
  unfold get_energy_stats
  rw [ht]

/-- C6: over any readings whose computed total export does not exceed the
computed total production, the self-consumption rate lies in [0, 100]; and
whenever total production is 0 the rate is exactly 0. -/
theorem C6_self_consumption_rate (period : String)
    (readings : List SolarReadingRow) :
    ((statsFor period readings).total_export_kwh
        ≤ (statsFor period readings).total_production_kwh →
      0 ≤ (statsFor period readings).self_consumption_rate ∧
      (statsFor period readings).self_consumption_rate ≤ 100) ∧
    ((statsFor period readings).total_production_kwh = 0 →
      (statsFor period readings).self_consumption_rate = 0) := by
  by_cases h : readings = []
  · subst h
    exact ⟨fun _ => ⟨le_refl 0, show (0 : ℚ) ≤ 100 by norm_num⟩,
           fun _ => rfl⟩
  · rw [statsFor_nonempty period readings h]
    dsimp only
    have hE : (0 : ℚ) ≤ (readings.map (fun r => max 0 r.grid_kw)).sum := by
      apply List.sum_nonneg
      intro x hx
      rw [List.mem_map] at hx
      obtain ⟨r, _, rfl⟩ := hx
      exact le_max_left 0 _
    constructor
    · intro hle
      by_cases hS : (readings.map (·.production_kw)).sum > 0
      · rw [if_pos hS]
        constructor
        · exact mul_nonneg (div_nonneg (sub_nonneg.2 hle) hS.le)
            (by norm_num)
        · rw [div_mul_eq_mul_div, div_le_iff₀ hS]
          nlinarith
      · rw [if_neg hS]
        norm_num
    · intro hS0
      rw [if_neg (by rw [hS0]; exact lt_irrefl 0)]

theorem importStep_inv_error (st : ImportState) (e : HistEntry)
    (n skip : Nat) (rows : List SolarReadingRow)
    (hinv : ImportInv n skip rows st) (msg : String)
    (he : importItem e = .error msg) :
    ImportInv n (skip + 1) rows (importStep st e) := by
  obtain ⟨h1, h2, h3, h4, h5⟩ := hinv
  unfold importStep
  rw [he]
  exact ⟨h1, by rw [h2], h3, h4, h5⟩

theorem importStep_inv_ok (st : ImportState) (e : HistEntry)
    (n skip : Nat) (rows : List SolarReadingRow)
    (hinv : ImportInv n skip rows st) (r : SolarReadingRow)
    (he : importItem e = .ok r) :
    ImportInv (n + 1) skip (rows ++ [r]) (importStep st e) := by
  obtain ⟨h1, h2, h3, h4, h5⟩ := hinv
  unfold importStep
  rw [he]
  dsimp only
  rw [h1]
  by_cases hmod : (n + 1) % 100 = 0
  · rw [if_pos hmod]
    refine ⟨rfl, h2, ?_, ?_, ?_⟩
    · dsimp only
      rw [List.map_append, h3, List.map_singleton, List.length_append,
          List.length_singleton, h5]
      have h99 : n % 100 = 99 := by omega
      have hdiv : (n + 1) / 100 = n / 100 + 1 := by omega
      rw [h99, hdiv, List.replicate_succ']
    · dsimp only
      simp only [List.flatten_append, List.flatten_cons, List.flatten_nil,
        List.append_nil, ← List.append_assoc, h4]
    · simpa using hmod.symm
  · rw [if_neg hmod]
    refine ⟨rfl, h2, ?_, ?_, ?_⟩
    · dsimp only
      rw [h3]
      have hdiv : (n + 1) / 100 = n / 100 := by omega
      rw [hdiv]
    · dsimp only
      rw [← List.append_assoc, h4]
    · dsimp only
      rw [List.length_append, List.length_singleton, h5]
      omega

theorem import_fold_inv (entries : List HistEntry) (st : ImportState)
    (n skip : Nat) (rows : List SolarReadingRow)
    (hinv : ImportInv n skip rows st) :
    ImportInv (n + (entries.filter importOk).length)
      (skip + (entries.filter (fun e => ! importOk e)).length)
      (rows ++ entries.filterMap (fun e => (importItem e).toOption))
      (entries.foldl importStep st) := by
  induction entries generalizing st n skip rows with
  | nil => simpa using hinv
  | cons e es ih =>
      rw [List.foldl_cons]
      cases he : importItem e with
      | error msg =>
          have hok : importOk e = false := by
            simp [importOk, he]
          have step := importStep_inv_error st e n skip rows hinv msg he
          have tail := ih (importStep st e) n (skip + 1) rows step
          have hfo : List.filter importOk (e :: es)
              = List.filter importOk es := by
            simp [List.filter_cons, hok]
          have hfb : List.filter (fun e => ! importOk e) (e :: es)
              = e :: List.filter (fun e => ! importOk e) es := by
            simp [List.filter_cons, hok]
          have hfm : List.filterMap (fun e => (importItem e).toOption)
                (e :: es)
              = List.filterMap (fun e => (importItem e).toOption) es := by
            simp [List.filterMap_cons, he, Except.toOption]
          rw [hfo, hfb, hfm]
          simpa [Nat.add_assoc, Nat.add_comm 1] using tail
      | ok r =>
          have hok : importOk e = true := by
            simp [importOk, he]
          have step := importStep_inv_ok st e n skip rows hinv r he
          have tail := ih (importStep st e) (n + 1) skip (rows ++ [r]) step
          have hfo : List.filter importOk (e :: es)
              = e :: List.filter importOk es := by
            simp [List.filter_cons, hok]
          have hfb : List.filter (fun e => ! importOk e) (e :: es)
              = List.filter (fun e => ! importOk e) es := by
            simp [List.filter_cons, hok]
          have hfm : List.filterMap (fun e => (importItem e).toOption)
                (e :: es)
              = r :: List.filterMap (fun e => (importItem e).toOption) es := by
            simp [List.filterMap_cons, he, Except.toOption]
          rw [hfo, hfb, hfm]
          simpa [Nat.add_assoc, Nat.add_comm 1, List.append_assoc]
            using tail

theorem import_historical_data_spec (entries : List HistEntry) :
    (import_historical_data entries).imported_count
        = (entries.filter importOk).length ∧
    (import_historical_data entries).skipped_count
        = (entries.filter (fun e => ! importOk e)).length ∧
    (import_historical_data entries).commits.map List.length
        = List.replicate ((entries.filter importOk).length / 100) 100
          ++ [(entries.filter importOk).length % 100] ∧
    (import_historical_data entries).commits.flatten
        = entries.filterMap (fun e => (importItem e).toOption) := by
  have h0 : ImportInv 0 0 [] ({} : ImportState) := ⟨rfl, rfl, rfl, rfl, rfl⟩
  obtain ⟨h1, h2, h3, h4, h5⟩ := import_fold_inv entries {} 0 0 [] h0
  unfold import_historical_data
  refine ⟨by simpa using h1, by simpa using h2, ?_, ?_⟩
  · dsimp only
    rw [List.map_append, h3, List.map_singleton, h5]
    simp [h1]
  · dsimp only
    rw [List.flatten_append]
    simpa using h4

theorem SolarReadingCreateV_timestamp (ts : Nat) (a b c : ℚ)
    (d e : Option ℚ) (r : SolarReadingRow)
    (h : SolarReadingCreateV ts a b c d e = .ok r) : r.timestamp = ts := by
  unfold SolarReadingCreateV at h
  by_cases h1 : a < 0
  · rw [if_pos h1] at h; cases h
  rw [if_neg h1] at h
  by_cases h2 : b < 0
  · rw [if_pos h2] at h; cases h
  rw [if_neg h2] at h
  cases e with
  | some soc =>
      dsimp only at h
      by_cases h3 : soc < 0 ∨ soc > 100
      · rw [if_pos h3] at h; cases h
      · rw [if_neg h3] at h; cases h; rfl
  | none => cases h; rfl

theorem PanelReadingCreateV_error_of_bad (now : Nat) (inv : InverterData)
    (hbad : inv.power_w < 0 ∨ inv.voltage_v < 0 ∨ inv.current_a < 0) :
    ∃ msg, PanelReadingCreateV now inv.serial (some inv.module_serial)
      inv.power_w (some inv.voltage_v) (some inv.current_a)
      (some inv.temperature_c) = .error msg := by
  unfold PanelReadingCreateV
  split_ifs with g1 g2 g3
  · exact ⟨_, rfl⟩
  · exact ⟨_, rfl⟩
  · exact ⟨_, rfl⟩
  · exfalso
    simp only [Option.getD_some] at g2 g3
    rcases hbad with h | h | h
    · exact g1 h
    · exact g2 h
    · exact g3 h

theorem PanelReadingCreateV_ok_of_good (now : Nat) (inv : InverterData)
    (hgood : ¬ (inv.power_w < 0 ∨ inv.voltage_v < 0 ∨ inv.current_a < 0)) :
    PanelReadingCreateV now inv.serial (some inv.module_serial)
      inv.power_w (some inv.voltage_v) (some inv.current_a)
      (some inv.temperature_c) =
    .ok { timestamp := now, panel_id := inv.serial,
          serial_number := some inv.module_serial, power_w := inv.power_w,
          voltage_v := some inv.voltage_v, current_a := some inv.current_a,
          temperature_c := some inv.temperature_c } := by
  push_neg at hgood
  obtain ⟨h1, h2, h3⟩ := hgood
  unfold PanelReadingCreateV
  rw [if_neg (not_lt.mpr h1), if_neg (by simpa using not_lt.mpr h2),
      if_neg (by simpa using not_lt.mpr h3)]

theorem buildPanelReadings_error (invs : List InverterData) (now : Nat)
    (h : ∃ inv ∈ invs,
      inv.power_w < 0 ∨ inv.voltage_v < 0 ∨ inv.current_a < 0) :
    ∃ msg, buildPanelReadings now invs = .error msg := by
  induction invs with
  | nil => simp at h
  | cons i rest ih =>
      by_cases hi : i.power_w < 0 ∨ i.voltage_v < 0 ∨ i.current_a < 0
      · obtain ⟨msg, hmsg⟩ := PanelReadingCreateV_error_of_bad now i hi
        exact ⟨msg, by rw [buildPanelReadings, hmsg]⟩
      · have hrest : ∃ inv ∈ rest,
            inv.power_w < 0 ∨ inv.voltage_v < 0 ∨ inv.current_a < 0 := by
          obtain ⟨inv, hmem, hbad⟩ := h
          rcases List.mem_cons.mp hmem with rfl | hmem2
          · exact absurd hbad hi
          · exact ⟨inv, hmem2, hbad⟩
        obtain ⟨msg, hmsg⟩ := ih hrest
        refine ⟨msg, ?_⟩
        simp only [buildPanelReadings,
          PanelReadingCreateV_ok_of_good now i hi, hmsg]

theorem commitStaged_dup (store : Store) (r : SolarReadingRow)
    (panels : List PanelReadingRow)
    (h : r.timestamp ∈ store.solar.map (·.timestamp)) :
    commitStaged store [r] panels = .error "UNIQUE constraint failed" := by
  unfold commitStaged
  rw [if_neg]
  rintro ⟨hts, -⟩
  rw [List.map_append, List.nodup_append] at hts
  exact hts.2.2 h (by simp)

/-- C4 (amended): a failure while constructing any single per-inverter
panel reading is NOT caught per item: the exception propagates to the
call-level handler, the whole sync call fails with an HTTP 500 error, and
nothing — neither the canonical reading nor any panel reading — is
committed. -/
theorem C4_panel_failure_aborts_sync (devices : List Device) (now : Nat)
    (store : Store)
    (h : ∃ inv ∈ (parse_device_data devices).inverters,
      inv.power_w < 0 ∨ inv.voltage_v < 0 ∨ inv.current_a < 0) :
    (sync_local_data (.ok devices) now store).1.isSuccess = false ∧
    (sync_local_data (.ok devices) now store).2 = store := by
  obtain ⟨msg, hmsg⟩ := buildPanelReadings_error _ now h
  cases hr : SolarReadingCreateV now
      (parse_device_data devices).total_power_kw
      (parse_device_data devices).consumption_kw
      (parse_device_data devices).grid_kw none none with
  | error m =>
      simp [sync_local_data, sync_local_body, hr, SyncResult.isSuccess]
  | ok r =>
      simp [sync_local_data, sync_local_body, hr, hmsg,
        SyncResult.isSuccess]

/-- C8 (amended): a unique-timestamp violation during a sync (local or
cloud) is not special-cased: the integrity error raised at commit is
caught by the call-level handler and re-raised as HTTP 500, so the sync
call fails and the stored data is unchanged; it is not reported as a
benign success. -/
theorem C8_duplicate_timestamp_fails :
    (∀ (fetch : Except String (List Device)) (now : Nat) (store : Store),
      now ∈ store.solar.map (·.timestamp) →
      (sync_local_data fetch now store).1.isSuccess = false ∧
      (sync_local_data fetch now store).2 = store) ∧
    (∀ (connOk : Bool) (c : CloudCurrent) (store : Store) (ts : Nat),
      fromisoformat c.timestamp = some ts →
      ts ∈ store.solar.map (·.timestamp) →
      (sync_cloud_data connOk (some c) store).1.isSuccess = false ∧
      (sync_cloud_data connOk (some c) store).2 = store) := by
  constructor
  · intro fetch now store hmem
    cases fetch with
    | error e => exact ⟨rfl, rfl⟩
    | ok devices =>
        cases hr : SolarReadingCreateV now
            (parse_device_data devices).total_power_kw
            (parse_device_data devices).consumption_kw
            (parse_device_data devices).grid_kw none none with
        | error m =>
            simp [sync_local_data, sync_local_body, hr,
              SyncResult.isSuccess]
        | ok r =>
            cases hp : buildPanelReadings now
                (parse_device_data devices).inverters with
            | error m =>
                simp [sync_local_data, sync_local_body, hr, hp,
                  SyncResult.isSuccess]
            | ok panels =>
                have hts : r.timestamp = now :=
                  SolarReadingCreateV_timestamp _ _ _ _ _ _ _ hr
                have hcommit := commitStaged_dup store r panels
                  (by rw [hts]; exact hmem)
                simp [sync_local_data, sync_local_body, hr, hp,
                  hcommit, SyncResult.isSuccess]
  · intro connOk c store ts hiso hmem
    cases connOk with
    | false =>
        simp [sync_cloud_data, sync_cloud_body, SyncResult.isSuccess]
    | true =>
        cases hr : SolarReadingCreateV ts
            (cloudCurrentVals c).production_kw
            (cloudCurrentVals c).consumption_kw
            (cloudCurrentVals c).grid_kw
            (cloudCurrentVals c).battery_kw
            (cloudCurrentVals c).battery_soc with
        | error m =>
            simp [sync_cloud_data, sync_cloud_body, hiso, hr,
              SyncResult.isSuccess]
        | ok r =>
            have hts : r.timestamp = ts :=
              SolarReadingCreateV_timestamp _ _ _ _ _ _ _ hr
            have hcommit := commitStaged_dup store r []
              (by rw [hts]; exact hmem)
            simp [sync_cloud_data, sync_cloud_body, hiso, hr, hcommit,
              SyncResult.isSuccess]

/-- C7 (amended): both cloud adapters map production/consumption/grid
and battery from watts to kW by dividing by 1000.  In the current-power
sync path (`sync_cloud_data`), `battery_kw` and `battery_soc` are set
exactly when the corresponding source field exists, `None` otherwise.  In
the historical-import path, however, `battery_kw` is set only when the
source battery value is present AND nonzero (Python truthiness), and
`battery_soc` is never set. -/
theorem C7_cloud_mapping (c : CloudCurrent) (e : HistEntry) :
    (cloudCurrentVals c).production_kw = c.production.getD 0 / 1000 ∧
    (cloudCurrentVals c).consumption_kw = c.consumption.getD 0 / 1000 ∧
    (cloudCurrentVals c).grid_kw = c.grid.getD 0 / 1000 ∧
    (cloudCurrentVals c).battery_kw = c.battery.map (fun b => b / 1000) ∧
    (cloudCurrentVals c).battery_soc = c.batterySOC ∧
    (histEntryVals e).production_kw = e.production.getD 0 / 1000 ∧
    (histEntryVals e).consumption_kw = e.consumption.getD 0 / 1000 ∧
    (histEntryVals e).grid_kw = e.grid.getD 0 / 1000 ∧
    (histEntryVals e).battery_kw
        = e.battery.bind
            (fun b => if b = 0 then none else some (b / 1000)) ∧
    (histEntryVals e).battery_soc = none := by
  refine ⟨rfl, rfl, rfl, ?_, ?_, rfl, rfl, rfl, ?_, rfl⟩
  · cases hb : c.battery with
    | none => simp [cloudCurrentVals, hb]
    | some b => simp [cloudCurrentVals, hb]
  · cases hb : c.batterySOC with
    | none => simp [cloudCurrentVals, hb]
    | some soc => simp [cloudCurrentVals, hb]
  · cases hb : e.battery with
    | none => simp [histEntryVals, hb]
    | some b =>
        by_cases hb0 : b = 0
        · simp [histEntryVals, hb, hb0]
        · simp [histEntryVals, hb, hb0]

section ConcreteEvaluation

attribute [local semireducible] Rat.mul Rat.inv Rat.add Rat.sub

set_option maxRecDepth 100000

/-- C1 counterexample: a single production-subtype meter reporting -1 kW.
The claim says `total_power_kw` equals the maximum power over production
records (-1 here); the code computes 0.0, because its running maximum
starts at 0.0. -/
theorem C1_counterexample :
    (parse_device_data [negProductionMeter]).total_power_kw = 0 ∧
    spec_total_power_kw [negProductionMeter] = -1 ∧
    (parse_device_data [negProductionMeter]).total_power_kw
      ≠ spec_total_power_kw [negProductionMeter] :=
  ⟨by decide, by decide, by decide⟩

/-- C5: for every historical series, an item whose processing fails (in
particular a strict-ISO-8601 parse failure) is counted in `skipped_count`
without aborting the rest; imported rows are committed in batches of
exactly 100 with a final commit of the remainder; and the 250-item series
with 3 malformed timestamps imports 247, skips 3, and commits batches of
sizes 100, 100 (at the 100th and 200th imported items) and 47. -/
theorem C5_import_batches :
    (∀ entries : List HistEntry,
      (import_historical_data entries).imported_count
          = (entries.filter importOk).length ∧
      (import_historical_data entries).skipped_count
          = (entries.filter (fun e => ! importOk e)).length ∧
      (import_historical_data entries).commits.map List.length
          = List.replicate ((entries.filter importOk).length / 100) 100
            ++ [(entries.filter importOk).length % 100] ∧
      (import_historical_data entries).commits.flatten
          = entries.filterMap (fun e => (importItem e).toOption)) ∧
    fromisoformat badHistEntry.timestamp = none ∧
    importOk badHistEntry = false ∧
    (import_historical_data demoHistorySeries).imported_count = 247 ∧
    (import_historical_data demoHistorySeries).skipped_count = 3 ∧
    (import_historical_data demoHistorySeries).commits.map List.length
        = [100, 100, 47] :=
  ⟨import_historical_data_spec, by decide, by decide, by decide, by decide,
   by decide⟩

/-- C4 counterexample: a device list with a healthy production meter and
one inverter reporting negative power.  The claim says the bad record is
skipped and the sync still commits the canonical reading; the code fails
the whole call with HTTP 500 and commits nothing. -/
theorem C4_counterexample :
    (sync_local_data (.ok [demoProductionMeter, demoBadInverter]) 7
        { solar := [], panels := [] }).1
      = .httpError
          ⟨500, "validation error: power_w greater than or equal to 0"⟩ ∧
    (sync_local_data (.ok [demoProductionMeter, demoBadInverter]) 7
        { solar := [], panels := [] }).2
      = { solar := [], panels := [] } :=
  ⟨by decide, by decide⟩

/-- C4 witness: the amended theorem applied to the concrete device list of
the counterexample. -/
theorem C4_witness :
    (∃ inv ∈ (parse_device_data
        [demoProductionMeter, demoBadInverter]).inverters,
      inv.power_w < 0 ∨ inv.voltage_v < 0 ∨ inv.current_a < 0) ∧
    ((sync_local_data (.ok [demoProductionMeter, demoBadInverter]) 7
        { solar := [], panels := [] }).1.isSuccess = false ∧
     (sync_local_data (.ok [demoProductionMeter, demoBadInverter]) 7
        { solar := [], panels := [] }).2 = { solar := [], panels := [] }) :=
  ⟨by decide,
   C4_panel_failure_aborts_sync [demoProductionMeter, demoBadInverter] 7
     { solar := [], panels := [] } (by decide)⟩

/-- C8 counterexample: a local sync inserting at a timestamp already in
the store.  The claim says the sync reports success as a benign
"already recorded" outcome; the code fails the call with HTTP 500. -/
theorem C8_counterexample :
    demoDupStore.solar.map (fun r => r.timestamp) = [7] ∧
    (sync_local_data (.ok [demoProductionMeter]) 7 demoDupStore).1
      = .httpError ⟨500, "UNIQUE constraint failed"⟩ ∧
    (sync_local_data (.ok [demoProductionMeter]) 7 demoDupStore).2
      = demoDupStore :=
  ⟨by decide, by decide, by decide⟩

/-- C8 witness: the amended theorem applied at the counterexample's
concrete store and timestamp. -/
theorem C8_witness :
    7 ∈ demoDupStore.solar.map (fun r => r.timestamp) ∧
    ((sync_local_data (.ok [demoProductionMeter]) 7
        demoDupStore).1.isSuccess = false ∧
     (sync_local_data (.ok [demoProductionMeter]) 7 demoDupStore).2
       = demoDupStore) :=
  ⟨by decide,
   C8_duplicate_timestamp_fails.1 (.ok [demoProductionMeter]) 7 demoDupStore
     (by decide)⟩

/-- C7 counterexample: a historical entry whose battery field is present
with value 0.  The claim says `battery_kw` is present exactly when the
source field exists; the import adapter maps it to `None` because Python
truthiness treats 0 as absent. -/
theorem C7_counterexample :
    zeroBatteryEntry.battery = some 0 ∧
    (histEntryVals zeroBatteryEntry).battery_kw = none :=
  ⟨rfl, by decide⟩

/-- C2 witness: the statistics theorem applied at period "today" and one
concrete stored reading. -/
theorem C2_witness :
    ("today" = "today" ∨ "today" = "week" ∨ "today" = "month" ∨
      "today" = "year") ∧
    (get_energy_stats "today" [demoReading]).total_production_kwh = 2 ∧
    (get_energy_stats "today" [demoReading]).average_production_kw = 2 :=
  ⟨Or.inl rfl, by
    have h := C2_energy_stats "today" [demoReading] (Or.inl rfl)
    refine ⟨?_, ?_⟩
    · rw [h.1]; decide
    · rw [h.2.2.2.2.2.1]; decide⟩

/-- C6 witness: the rate-bounds theorem applied at one concrete reading
(production 2, export 1: rate 50). -/
theorem C6_witness :
    (statsFor "today" [demoReading]).total_export_kwh
        ≤ (statsFor "today" [demoReading]).total_production_kwh ∧
    (0 ≤ (statsFor "today" [demoReading]).self_consumption_rate ∧
     (statsFor "today" [demoReading]).self_consumption_rate ≤ 100) :=
  ⟨by decide, (C6_self_consumption_rate "today" [demoReading]).1 (by decide)⟩

end ConcreteEvaluation

end SolarAnalyzer
